import Mathlib

/-!
Verification development for the data-insights repository: a natural-language
data-query layer (React/TypeScript frontend, FastAPI backend) in which an
utterance is classified, resolved to one uploaded dataset, turned into a SQL
statement by a completion oracle, repaired, guarded, executed, and shape-
classified for rendering.

The frontend components (KPICard.tsx, DataTable, ChatInterface, api.ts) are
embedded directly from their TypeScript sources.  The backend pipeline modules
(chat.py, gemini_service.py, sql_executor.py) are not present in the source
tree; they are modelled from the specification and from the technical
documentation in the repository (TECHNICAL_WALKTHROUGH.md, the visualization
guide, the implementation summary), as noted on each definition.
-/

namespace DataInsights

/-! ## JavaScript value model (frontend embeddings) -/

/-- A JavaScript runtime value as the frontend components treat it:
numbers are modelled as rationals, plus strings, booleans, null and
undefined. -/
inductive JSValue where
  | num (q : ℚ)
  | str (s : String)
  | jsBool (b : Bool)
  | null
  | undefined
deriving DecidableEq

/-- JavaScript truthiness: 0 and the empty string are falsy, as are null,
undefined and false. -/
def truthy : JSValue → Bool
  | .num q => decide (q ≠ 0)
  | .str s => decide (s ≠ "")
  | .jsBool b => b
  | .null => false
  | .undefined => false

/-- The JavaScript short-circuit or: a or b evaluates to a when a is
truthy, else to b. -/
def jsOr (a b : JSValue) : JSValue := if truthy a then a else b

/-- A JavaScript object as an insertion-ordered association list of own
properties, mirroring a TypeScript value of a record type. -/
abbrev JSRecord := List (String × JSValue)

/-- Property access r[k]: the value of the first property named k, or
undefined when the object has no such property. -/
def getProp (r : JSRecord) (k : String) : JSValue :=
  match r.find? (fun p => p.1 = k) with
  | some p => p.2
  | none => .undefined

/-! ## KPICard (src/frontend/src/components/Visualization/KPICard.tsx) -/

/-- The second fallback of the KPICard value chain, data bracket
Object.keys of data at index 0: the value stored under the first key of the
record, or undefined when the record is empty (indexing with an undefined
key finds no property). -/
def kpiFirstKeyValue (data : JSRecord) : JSValue :=
  match data.head? with
  | some p => getProp data p.1
  | none => .undefined

/-- KPICard.tsx line 8: the displayed value is data.value, or else the value
under the first key of data, or else 0, combined with the JavaScript
short-circuit or. -/
def kpiValue (data : JSRecord) : JSValue :=
  jsOr (jsOr (getProp data "value") (kpiFirstKeyValue data)) (.num 0)

/-- Rounding to at most two fraction digits, the numeric effect of
toLocaleString with maximumFractionDigits 2 in KPICard.tsx lines 12-17
(the locale also inserts digit grouping, which does not change the numeric
value shown). -/
def roundTo2 (q : ℚ) : ℚ := (round (q * 100) : ℤ) / 100

/-- KPICard.tsx lines 12-17: a numeric value is formatted with at most two
fraction digits; any other value is displayed as is. -/
def kpiFormattedValue (data : JSRecord) : JSValue :=
  match kpiValue data with
  | .num q => .num (roundTo2 q)
  | v => v

/-! ## DataTable (src/unnamed chat result table component) -/

/-- What the chat result table renders: the empty-input placeholder with the
text No data to display, or a table carrying the displayed columns, the
displayed rows, the two numbers of the header line Showing n of N rows, and
the has-more footer flag. -/
inductive TableView where
  | placeholder
  | table (displayColumns : List String) (displayRows : List JSRecord)
      (shownCount : Nat) (totalCount : Nat) (hasMore : Bool)
deriving DecidableEq

/-- The DataTable component: empty rows render the placeholder; otherwise
displayColumns is the columns prop when non-empty else the keys of the first
row, displayRows is rows.slice(0, 10) (slice copies, it does not mutate),
the header reads Showing displayRows.length of rows.length rows, and the
has-more footer shows when more than 10 rows were given. -/
def dataTableRender (rows : List JSRecord) (columns : List String) : TableView :=
  if rows = [] then .placeholder
  else
    .table (if columns ≠ [] then columns else (rows.head?.getD []).map Prod.fst)
      (rows.take 10) (rows.take 10).length rows.length (decide (rows.length > 10))

/-! ## Relational pipeline model

The backend modules chat.py, gemini_service.py and sql_executor.py are not in
the source tree; the definitions below are modelled from the specification and
from the technical documentation kept with the code. -/

/-- The inferred scalar type and cardinality class of a catalogued column. -/
inductive ColKind where
  | numeric
  | date
  | categorical
  | textual
deriving DecidableEq

/-- One column of a Catalog Entry: name plus inferred kind. -/
structure Column where
  name : String
  kind : ColKind
deriving DecidableEq

/-- Modelled from the spec: a Catalog Entry (the catalog record the backend
keeps per uploaded file) with the target id, the column list, bounded sample
values given as column-literal pairs, and the row count. -/
structure CatalogEntry where
  id : String
  columns : List Column
  samples : List (String × String)
  rowCount : Nat
deriving DecidableEq

/-- The names of the catalogued columns. -/
def CatalogEntry.columnNames (e : CatalogEntry) : List String :=
  e.columns.map Column.name

/-- Modelled from the spec: one delimiter-separated SQL statement of a
Candidate Statement, in the structured form the repair rules and the guard
inspect: the leading verb token, the referenced target, the referenced
columns, the remaining standalone tokens, and the optional grouping, filter,
ordering and limit clauses. -/
structure Stmt where
  verb : String
  target : String
  colsReferenced : List String
  extraTokens : List String
  groupBy : Option String
  filterEq : Option (String × String)
  orderBy : Option String
  orderDesc : Option Bool
  limitN : Option Nat
deriving DecidableEq

/-- The standalone tokens of a statement, for the token blacklist check. -/
def Stmt.tokens (s : Stmt) : List String := s.verb :: s.extraTokens

/-- The mutating and administrative keywords the guard blacklists
(sql_executor.py documentation: DROP, DELETE, INSERT, UPDATE, etc.). -/
def mutatingKeywords : List String :=
  ["DROP", "DELETE", "INSERT", "UPDATE", "ALTER", "CREATE", "TRUNCATE",
   "GRANT", "REVOKE"]

/-- A statement whose verb is a mutating or administrative keyword. -/
def Stmt.isMutating (s : Stmt) : Bool := mutatingKeywords.contains s.verb

/-- Modelled from the spec: fuzzy matching of a possibly truncated target
reference against the exact catalogued id, as exact match or prefix. -/
def fuzzyMatches (ref id : String) : Bool := ref.data.isPrefixOf id.data

/-- Why a Candidate Statement could not be repaired. -/
inductive RepairError where
  | noStatement
  | unknownTarget
deriving DecidableEq

/-- Modelled from the spec: repair rule 1 (identifier correction) rewrites a
truncated or fuzzy-matched target reference to the exact catalogued id, and
reports an unknown target as unrepairable. -/
def correctIdentifier (entry : CatalogEntry) (s : Stmt) : Option Stmt :=
  if fuzzyMatches s.target entry.id then some { s with target := entry.id }
  else none

/-- An utterance tokenized into lowercase words, the form in which the
repair cues and the classifier keywords are read off. -/
abbrev Words := List String

/-- Modelled from the spec: the grouping cue of repair rule 3, the word that
follows by in the utterance. -/
def groupCue : Words → Option String
  | [] => none
  | w :: rest => if w = "by" then rest.head? else groupCue rest

/-- Whether the catalog entry has a column of the given name. -/
def CatalogEntry.hasColumn (e : CatalogEntry) (c : String) : Bool :=
  e.columnNames.contains c

/-- Modelled from the spec: repair rule 3a (clause completion, grouping): if
the utterance implies grouping by a catalogued column and the statement has
no grouping clause, append a matching grouping clause. -/
def completeGrouping (u : Words) (entry : CatalogEntry) (s : Stmt) : Stmt :=
  match groupCue u with
  | none => s
  | some x =>
      if s.groupBy.isNone && entry.hasColumn x then
        { s with groupBy := some x, colsReferenced := s.colsReferenced ++ [x] }
      else s

/-- Modelled from the spec: the filter cue of repair rule 3b, the first
sampled column-literal pair whose literal occurs in the utterance (the
sampled column is the best-matching column for that literal). -/
def filterCue (u : Words) (entry : CatalogEntry) : Option (String × String) :=
  entry.samples.find? (fun p => u.contains p.2)

/-- Modelled from the spec: repair rule 3b (clause completion, filter): if
the utterance mentions a literal found in a sampled column and the statement
has no filter, append an equality filter on that column. -/
def completeFilter (u : Words) (entry : CatalogEntry) (s : Stmt) : Stmt :=
  match filterCue u entry with
  | none => s
  | some p =>
      if s.filterEq.isNone then
        { s with filterEq := some p, colsReferenced := s.colsReferenced ++ [p.1] }
      else s

/-- Modelled from the spec: the ranking cue of repair rule 4, a top N or
last N phrase in the utterance, read as a descending order with limit N. -/
def rankCue : Words → Option (Bool × Nat)
  | [] => none
  | w :: rest =>
      if w = "top" || w = "last" then
        match rest.head?.bind String.toNat? with
        | some n => some (true, n)
        | none => rankCue rest
      else rankCue rest

/-- Modelled from the spec: repair rule 4 (ordering and limit completion):
if an ordering clause lacks a direction or a limit despite a ranking cue in
the utterance, append the inferred direction and limit. -/
def completeOrdering (u : Words) (s : Stmt) : Stmt :=
  match rankCue u with
  | none => s
  | some dn =>
      if s.orderBy.isSome then
        { s with
          orderDesc := some (s.orderDesc.getD dn.1),
          limitN := some (s.limitN.getD dn.2) }
      else s

/-- Modelled from the spec: Statement Repair (the SQL post-processing of
gemini_service.py, which is not in the source tree), applying the fixed-order
rule set to a delimiter-split Candidate Statement: single-statement isolation
keeps only the first statement, identifier correction rewrites its target
reference or marks an unknown target unrepairable, then clause completion and
ordering completion run on the kept statement.  Identifier correction touches
only the statement that isolation keeps, so applying it before or after
isolation gives the same result. -/
def repair (u : Words) (entry : CatalogEntry) (cand : List Stmt) :
    Except RepairError Stmt :=
  match cand with
  | [] => .error .noStatement
  | s0 :: _ =>
      match correctIdentifier entry s0 with
      | none => .error .unknownTarget
      | some s1 => .ok (completeOrdering u (completeFilter u entry (completeGrouping u entry s1)))

/-- The reject reasons of the Statement Guard. -/
inductive ErrorKind where
  | statementKind
  | targetWhitelist
  | columnWhitelist
  | tokenBlacklist
deriving DecidableEq

/-- Modelled from the spec: the Statement Guard (the validation process of
sql_executor.py, which is not in the source tree), in the documented check
order: query type must be SELECT (StatementKind), the statement target must
equal the resolved id (TargetWhitelist), no mutating or administrative
keyword may appear as a standalone token (TokenBlacklist), and every
referenced column must exist in the catalog entry (ColumnWhitelist). -/
def guardStmt (resolvedId : String) (entry : CatalogEntry) (s : Stmt) :
    Except ErrorKind Stmt :=
  if s.verb ≠ "SELECT" then .error .statementKind
  else if s.target ≠ resolvedId then .error .targetWhitelist
  else if s.tokens.any (fun t => mutatingKeywords.contains t) then .error .tokenBlacklist
  else if !(s.colsReferenced.all (fun c => entry.hasColumn c)) then .error .columnWhitelist
  else .ok s

/-- Modelled from the spec: the statement the Executor actually runs for a
Candidate Statement, if any: the repaired statement when it passes the guard,
and nothing when repair or the guard fails (any guard failure is terminal
for the turn). -/
def executedStatement (resolvedId : String) (u : Words) (entry : CatalogEntry)
    (cand : List Stmt) : Option Stmt :=
  match repair u entry cand with
  | .error _ => none
  | .ok s =>
      match guardStmt resolvedId entry s with
      | .error _ => none
      | .ok g => some g

/-! ## Statement Synthesizer (oracle boundary) -/

/-- One call to the Completion Oracle, indexed by attempt number: the service
is unreachable, or it returns text (possibly empty). -/
inductive OracleResult where
  | unreachable
  | text (t : String)
deriving DecidableEq

/-- The outcome of one oracle attempt: the returned text when the service
answered with non-empty text, nothing on unreachable or empty output. -/
def attemptText : OracleResult → Option String
  | .unreachable => none
  | .text t => if t = "" then none else some t

/-- Modelled from the spec: the Statement Synthesizer oracle call of
gemini_service.generate_sql_query, which is not in the source tree.  The
repository documentation records a single API call with no retry: Retry
logic for API calls appears only under Next Steps (Optional Enhancements)
in the implementation summary and as an unchecked item in the improvement
checklist, so the synthesizer makes exactly one attempt and returns
Synthesis Failure when that attempt is unreachable or returns empty text. -/
def synthesize (oracle : Nat → OracleResult) : Except Unit String :=
  match attemptText (oracle 0) with
  | some t => .ok t
  | none => .error ()

/-- The retry discipline stated by the spec, written from its words for
comparison with the documented behavior: a fixed budget of 2 attempts, the
second taken only when the first is unreachable or returns empty text. -/
def synthesizeSpecRetry (oracle : Nat → OracleResult) : Except Unit String :=
  match attemptText (oracle 0) with
  | some t => .ok t
  | none =>
      match attemptText (oracle 1) with
      | some t => .ok t
      | none => .error ()

/-! ## Query Classifier -/

/-- The five utterance categories of the classify-then-branch control flow. -/
inductive Category where
  | chitChat
  | metadataQuestion
  | editInstruction
  | visualizationControl
  | dataQuestion
deriving DecidableEq

/-- The short conversation context the classifier reads: whether a
visualization is currently active. -/
structure ChatContext where
  hasActiveVisualization : Bool
deriving DecidableEq

/-- Small-talk keywords of the classifier battery. -/
def chitChatWords : List String := ["hello", "hi", "hey", "thanks", "thank", "bye"]

/-- Metadata-question keywords of the classifier battery. -/
def metadataWords : List String := ["files", "uploaded", "catalog", "datasets", "schema"]

/-- Edit-instruction keywords of the classifier battery. -/
def editWords : List String := ["update", "set", "change", "insert", "delete", "remove"]

/-- Visualization-control keywords of the classifier battery. -/
def vizWords : List String := ["chart", "bar", "line", "graph", "plot", "table"]

/-- Whether the utterance contains one of the given keywords as a word. -/
def hasWordIn (u : Words) (ws : List String) : Bool :=
  u.any (fun w => ws.contains w)

/-- Modelled from the spec: the Query Classifier (the request-type detection
of chat.py, which is not in the source tree), an ordered battery of lexical
heuristics over the utterance words and the presence of an active
visualization, defaulting to data-question on uncertainty.  It is a plain
function of its two arguments: no oracle or store effect occurs inside it. -/
def classify (u : Words) (ctx : ChatContext) : Category :=
  if hasWordIn u chitChatWords then .chitChat
  else if hasWordIn u metadataWords then .metadataQuestion
  else if hasWordIn u editWords then .editInstruction
  else if ctx.hasActiveVisualization && hasWordIn u vizWords then .visualizationControl
  else .dataQuestion

/-- The ordered classifier battery as a relation: each rule fires only when
every earlier rule declined, mirroring the documented detection order. -/
inductive Classifies : Words → ChatContext → Category → Prop where
  | chitChat {u : Words} {ctx : ChatContext}
      (h : hasWordIn u chitChatWords = true) : Classifies u ctx .chitChat
  | metadata {u : Words} {ctx : ChatContext}
      (h1 : hasWordIn u chitChatWords = false)
      (h2 : hasWordIn u metadataWords = true) : Classifies u ctx .metadataQuestion
  | edit {u : Words} {ctx : ChatContext}
      (h1 : hasWordIn u chitChatWords = false)
      (h2 : hasWordIn u metadataWords = false)
      (h3 : hasWordIn u editWords = true) : Classifies u ctx .editInstruction
  | vizControl {u : Words} {ctx : ChatContext}
      (h1 : hasWordIn u chitChatWords = false)
      (h2 : hasWordIn u metadataWords = false)
      (h3 : hasWordIn u editWords = false)
      (h4 : (ctx.hasActiveVisualization && hasWordIn u vizWords) = true) :
      Classifies u ctx .visualizationControl
  | dataQ {u : Words} {ctx : ChatContext}
      (h1 : hasWordIn u chitChatWords = false)
      (h2 : hasWordIn u metadataWords = false)
      (h3 : hasWordIn u editWords = false)
      (h4 : (ctx.hasActiveVisualization && hasWordIn u vizWords) = false) :
      Classifies u ctx .dataQuestion

/-- The externally visible effects of one pipeline run, in order. -/
inductive Effect where
  | classified (c : Category)
  | oracleCall
  | storeCall
  | responded
deriving DecidableEq

/-- Modelled from the spec: the effect trace of one request through the
chat.py request flow, which is not in the source tree: the utterance is
classified first, and only the branch taken afterwards may call the
Completion Oracle or the store. -/
def pipelineTrace (u : Words) (ctx : ChatContext) : List Effect :=
  Effect.classified (classify u ctx) ::
    match classify u ctx with
    | .chitChat => [Effect.oracleCall, Effect.responded]
    | .metadataQuestion => [Effect.responded]
    | .editInstruction => [Effect.oracleCall, Effect.storeCall, Effect.responded]
    | .visualizationControl => [Effect.responded]
    | .dataQuestion => [Effect.oracleCall, Effect.storeCall, Effect.responded]

/-! ## Shape Classifier -/

/-- One column of a Result Set: name plus inferred kind. -/
structure RCol where
  name : String
  kind : ColKind
deriving DecidableEq

/-- A Result Set as the Shape Classifier sees it: the column list and the
row count. -/
structure ResultSet where
  columns : List RCol
  rowCount : Nat
deriving DecidableEq

/-- The rendering categories a result can be classified into. -/
inductive Directive where
  | singleValue
  | timeSeries
  | categoryCount
  | tabular
deriving DecidableEq

/-- The shape of a Result Set: its row count and its column kinds, with the
column names forgotten. -/
def shapeOf (rs : ResultSet) : Nat × List ColKind :=
  (rs.rowCount, rs.columns.map RCol.kind)

/-- Modelled from the spec: the visualization auto-detection (the default
behavior documented in the visualization guide; the deciding code in chat.py
is not in the source tree).  In documented first-match order: a single
number, one row and one numeric column, gives the single-value card; a date
column with a number over bounded rows gives the time series; a categorical
column with a number over bounded rows gives the category count; everything
else, including a one-by-one non-numeric result, falls through to the
table. -/
def shapeClassify (rs : ResultSet) : Directive :=
  match rs.columns with
  | [c] =>
      if rs.rowCount = 1 ∧ c.kind = ColKind.numeric then .singleValue
      else .tabular
  | [a, b] =>
      if a.kind = ColKind.date ∧ b.kind = ColKind.numeric ∧ rs.rowCount ≤ 20 then
        .timeSeries
      else if a.kind = ColKind.categorical ∧ b.kind = ColKind.numeric ∧ rs.rowCount ≤ 20 then
        .categoryCount
      else .tabular
  | _ => .tabular

/-! ## Response shape (src/frontend/src/services/api.ts) -/

/-- The data block of a chat response, from the ChatMessageResponse interface
of api.ts: rows, columns, the executed SQL text and the file id (the last
two optional in the wire type). -/
structure ChatData where
  rows : List JSRecord
  columns : List String
  sql_query : Option String
  file_id : Option String
deriving DecidableEq

/-- The visualization block of a chat response, from the
VisualizationConfig interface of api.ts; the TypeScript field named type is
rendered here as vtype. -/
structure VisualizationConfig where
  vtype : String
  show_bar_chart : Bool
  input_data : Option (List JSRecord)
deriving DecidableEq

/-- The response the backend produces for the rendering layer, from the
ChatMessageResponse interface of api.ts: the message text and the session id
are required fields, the data and visualization blocks are optional. -/
structure ChatMessageResponse where
  message : String
  data : Option ChatData
  visualization : Option VisualizationConfig
  session_id : String
deriving DecidableEq

/-- The wire name of a rendering directive, as the frontend switches on it. -/
def directiveName : Directive → String
  | .singleValue => "kpi"
  | .timeSeries => "line_chart"
  | .categoryCount => "bar_chart"
  | .tabular => "table"

/-- Modelled from the spec: the outcome of one turn as the orchestrator in
chat.py (not in the source tree) sees it before formatting the response: a
succeeded data query carrying its message, rows, columns, executed statement
text, file id, directive and reshaped data; or a non-data answer; or a
mapped failure message. -/
inductive TurnOutcome where
  | dataSuccess (msg : String) (rows : List JSRecord) (columns : List String)
      (stmtText : String) (fileId : String) (directive : Directive)
      (shaped : List JSRecord)
  | info (msg : String)
  | failure (msg : String)
deriving DecidableEq

/-- Whether the turn is a succeeded data query. -/
def TurnOutcome.isDataSuccess : TurnOutcome → Bool
  | .dataSuccess _ _ _ _ _ _ _ => true
  | _ => false

/-- The user-facing message of a turn outcome; every outcome has one. -/
def TurnOutcome.messageText : TurnOutcome → String
  | .dataSuccess m _ _ _ _ _ _ => m
  | .info m => m
  | .failure m => m

/-- Modelled from the spec: response formatting in chat.py (not in the
source tree): a succeeded data query fills the data block (rows, columns,
executed statement text, file id) and the visualization block (directive
name and reshaped data); every other outcome carries the message alone. -/
def buildResponse (sid : String) : TurnOutcome → ChatMessageResponse
  | .dataSuccess m rows cols stmt fid d shaped =>
      { message := m,
        data := some { rows := rows, columns := cols, sql_query := some stmt,
                       file_id := some fid },
        visualization := some { vtype := directiveName d,
                                show_bar_chart := decide (d = .categoryCount),
                                input_data := some shaped },
        session_id := sid }
  | .info m =>
      { message := m, data := none, visualization := none, session_id := sid }
  | .failure m =>
      { message := m, data := none, visualization := none, session_id := sid }

/-! ## ChatInterface state machine (src/unnamed ChatInterface component) -/

/-- The tool-call summary the interface extracts from a response. -/
structure ToolCalls where
  sql_query : Option String
  file_id : Option String
  row_count : Nat
deriving DecidableEq

/-- One entry of the conversation history kept in component state. -/
structure ChatMsg where
  role : String
  content : String
  data : Option ChatData
  visualization : Option VisualizationConfig
  toolCalls : Option ToolCalls
deriving DecidableEq

/-- The component state of ChatInterface: the message list, the input box,
the loading flag and the session id. -/
structure ChatState where
  messages : List ChatMsg
  input : String
  loading : Bool
  sessionId : Option String
deriving DecidableEq

/-- The events the component reacts to: typing into the input box, pressing
send, and the in-flight request resolving or rejecting. -/
inductive ChatEvent where
  | setInput (s : String)
  | send
  | responseOk (r : ChatMessageResponse)
  | responseErr (msg : String)

/-- ChatInterface handleSend, the guard and the synchronous prefix: when the
trimmed input is empty or a request is already loading, it returns without
touching state; otherwise it appends the user message, clears the input and
sets loading. -/
def handleSend (st : ChatState) : ChatState :=
  if st.input.trim = "" || st.loading then st
  else
    { st with
      messages := st.messages ++
        [{ role := "user", content := st.input, data := none,
           visualization := none, toolCalls := none }],
      input := "",
      loading := true }

/-- ChatInterface lines 68-72: the tool-call block is built only when the
response carries a data block with a truthy sql_query. -/
def extractToolCalls (r : ChatMessageResponse) : Option ToolCalls :=
  match r.data with
  | none => none
  | some d =>
      match d.sql_query with
      | none => none
      | some q =>
          if q = "" then none
          else some { sql_query := some q, file_id := d.file_id,
                      row_count := d.rows.length }

/-- ChatInterface, the resolved branch of handleSend: record the session id
when the response carries a truthy one and none is set yet, append the
assistant message built from the response, and clear loading. -/
def handleResponse (st : ChatState) (r : ChatMessageResponse) : ChatState :=
  let st1 :=
    if r.session_id ≠ "" ∧ st.sessionId = none then
      { st with sessionId := some r.session_id }
    else st
  { st1 with
    messages := st1.messages ++
      [{ role := "assistant", content := r.message, data := r.data,
         visualization := r.visualization, toolCalls := extractToolCalls r }],
    loading := false }

/-- ChatInterface, the catch branch of handleSend: append an assistant error
message and clear loading. -/
def handleError (st : ChatState) (m : String) : ChatState :=
  { st with
    messages := st.messages ++
      [{ role := "assistant", content := "Error: " ++ m, data := none,
         visualization := none, toolCalls := none }],
    loading := false }

/-- The ChatInterface transition function over its events. -/
def chatStep (st : ChatState) : ChatEvent → ChatState
  | .setInput s => { st with input := s }
  | .send => handleSend st
  | .responseOk r => handleResponse st r
  | .responseErr m => handleError st m

/-! ## Concrete instances used to evaluate the model -/

/-- A concrete catalog entry for a small sales dataset. -/
def exEntry : CatalogEntry :=
  { id := "sales_2024",
    columns := [{ name := "month", kind := .date },
                { name := "amount", kind := .numeric },
                { name := "region", kind := .categorical }],
    samples := [("region", "west")],
    rowCount := 4821 }

/-- A read-only statement with a truncated target reference. -/
def exSelectTrunc : Stmt :=
  { verb := "SELECT", target := "sales_20", colsReferenced := ["amount"],
    extraTokens := [], groupBy := none, filterEq := none,
    orderBy := none, orderDesc := none, limitN := none }

/-- The statement exSelectTrunc after identifier correction. -/
def exRepairedW : Stmt := { exSelectTrunc with target := "sales_2024" }

/-- A mutating statement against the catalogued target. -/
def exDrop : Stmt :=
  { verb := "DROP", target := "sales_2024", colsReferenced := [],
    extraTokens := [], groupBy := none, filterEq := none,
    orderBy := none, orderDesc := none, limitN := none }

/-- A mutating statement against another target. -/
def exDropCross : Stmt := { exDrop with target := "other_table" }

/-- A syntactically valid read-only statement against another target. -/
def exSelectCross : Stmt := { exRepairedW with target := "other_table" }

/-- A one-row, one-column result whose only column is textual. -/
def rsTextOne : ResultSet :=
  { columns := [{ name := "label", kind := .textual }], rowCount := 1 }

/-- A one-row, one-column result whose only column is numeric. -/
def rsCountOne : ResultSet :=
  { columns := [{ name := "count", kind := .numeric }], rowCount := 1 }

/-- An oracle that is unreachable on the first attempt and answers with text
on every later attempt. -/
def oracleSecondTry : Nat → OracleResult :=
  fun n => if n = 0 then .unreachable else .text "SELECT 1"

/-- An oracle that is unreachable on every attempt. -/
def oracleAllDown : Nat → OracleResult := fun _ => .unreachable

/-- A concrete succeeded data-query outcome. -/
def exOutcome : TurnOutcome :=
  .dataSuccess "There are 4821 rows." [[("count", JSValue.num 4821)]] ["count"]
    "SELECT COUNT(*) FROM sales_2024" "sales_2024" .singleValue
    [[("value", JSValue.num 4821)]]

/-- The data block buildResponse produces for exOutcome. -/
def exDataBlock : ChatData :=
  { rows := [[("count", JSValue.num 4821)]], columns := ["count"],
    sql_query := some "SELECT COUNT(*) FROM sales_2024",
    file_id := some "sales_2024" }

/-- A chat interface state with a request in flight. -/
def stLoading : ChatState :=
  { messages := [], input := "and by month", loading := true, sessionId := none }

/-! ## Theorems -/

/-- C9: for every KPI record, the displayed value is data.value when truthy,
else the value of the first key when truthy, else 0; a stored number 0 or
empty string is falsy and falls to the next link of the chain; and a numeric
displayed value is formatted with at most two fraction digits (times 100 it
is an integer). -/
theorem c9_kpi_fallback_chain (data : JSRecord) :
    (truthy (getProp data "value") = true → kpiValue data = getProp data "value")
    ∧ (truthy (getProp data "value") = false → truthy (kpiFirstKeyValue data) = true →
        kpiValue data = kpiFirstKeyValue data)
    ∧ (truthy (getProp data "value") = false → truthy (kpiFirstKeyValue data) = false →
        kpiValue data = .num 0)
    ∧ truthy (.num 0) = false
    ∧ truthy (.str "") = false
    ∧ (∀ q : ℚ, kpiFormattedValue data = .num q → (q * 100).den = 1) := by
  refine ⟨?_, ?_, ?_, by simp [truthy], by simp [truthy], ?_⟩
  · intro h
    simp [kpiValue, jsOr, h]
  · intro h1 h2
    simp [kpiValue, jsOr, h1, h2]
  · intro h1 h2
    simp [kpiValue, jsOr, h1, h2]
  · intro q hq
    unfold kpiFormattedValue at hq
    cases hv : kpiValue data <;> rw [hv] at hq <;> simp at hq
    rw [← hq]
    unfold roundTo2
    rw [div_mul_cancel₀ _ (by norm_num : (100 : ℚ) ≠ 0)]
    exact Rat.den_intCast _

/-- C9 witness: a record with a truthy stored value displays that value. -/
theorem c9_kpi_fallback_chain_witness :
    kpiValue [("value", JSValue.num 5)] = getProp [("value", JSValue.num 5)] "value" :=
  (c9_kpi_fallback_chain [("value", JSValue.num 5)]).1 (by decide)

/-- C10: the chat result table renders the placeholder exactly on empty
input; otherwise it renders the first min(10, N) rows of the input in their
original order (a prefix of the input), the header count n is the number of
displayed rows, the header total N is the full input length, and the
has-more footer shows exactly when more than 10 rows were given. -/
theorem c10_table_renders_first_ten (rows : List JSRecord) (columns : List String) :
    (dataTableRender rows columns = .placeholder ↔ rows = [])
    ∧ (∀ cols dr n N hm, dataTableRender rows columns = .table cols dr n N hm →
        dr = rows.take 10 ∧ dr.length = min 10 rows.length ∧ dr <+: rows
        ∧ n = dr.length ∧ N = rows.length ∧ (hm = true ↔ 10 < rows.length)) := by
  constructor
  · by_cases h : rows = [] <;> simp [dataTableRender, h]
  · intro cols dr n N hm htab
    by_cases h : rows = []
    · simp [dataTableRender, h] at htab
    · unfold dataTableRender at htab
      rw [if_neg h] at htab
      injection htab with hc hd hn hN hh
      subst hd hn hN
      refine ⟨rfl, List.length_take 10 rows, List.take_prefix 10 rows, rfl, rfl, ?_⟩
      rw [← hh]
      simp

/-- C10 witness: a single-row input renders that row as a prefix of the
input and shows no has-more footer. -/
theorem c10_table_renders_first_ten_witness :
    ([[("a", JSValue.num 1)]] : List JSRecord) <+: [[("a", JSValue.num 1)]]
    ∧ (false = true ↔ 10 < ([[("a", JSValue.num 1)]] : List JSRecord).length) := by
  have h := (c10_table_renders_first_ten [[("a", JSValue.num 1)]] ["a"]).2
    ["a"] [[("a", JSValue.num 1)]] 1 1 false rfl
  exact ⟨h.2.2.1, h.2.2.2.2.2⟩

/-- Each ChatInterface event only appends to the message list. -/
theorem chatStep_messages_extend (st : ChatState) (e : ChatEvent) :
    st.messages <+: (chatStep st e).messages := by
  cases e with
  | setInput s => exact List.prefix_refl _
  | send =>
      show st.messages <+: (handleSend st).messages
      unfold handleSend
      split
      · exact List.prefix_refl _
      · exact List.prefix_append _ _
  | responseOk r =>
      show st.messages <+: (handleResponse st r).messages
      unfold handleResponse
      by_cases hP : r.session_id ≠ "" ∧ st.sessionId = none
      · rw [if_pos hP]
        exact List.prefix_append _ _
      · rw [if_neg hP]
        exact List.prefix_append _ _
  | responseErr m =>
      show st.messages <+: (handleError st m).messages
      unfold handleError
      exact List.prefix_append _ _

/-- C7: conversation history grows monotonically and is never interleaved:
every event of the ChatInterface state machine extends the message list
(each turn appends, never edits or removes), a send arriving while a request
is loading leaves the state untouched, and along any event sequence the
earlier history is a prefix of the later history. -/
theorem c7_history_monotone :
    (∀ (st : ChatState) (e : ChatEvent), st.messages <+: (chatStep st e).messages)
    ∧ (∀ st : ChatState, st.loading = true → chatStep st .send = st)
    ∧ (∀ (st : ChatState) (evs : List ChatEvent),
        st.messages <+: (evs.foldl chatStep st).messages) := by
  refine ⟨chatStep_messages_extend, ?_, ?_⟩
  · intro st h
    show handleSend st = st
    unfold handleSend
    rw [if_pos (by rw [h]; simp)]
  · intro st evs
    induction evs generalizing st with
    | nil => exact List.prefix_refl _
    | cons e t ih =>
        exact List.IsPrefix.trans (chatStep_messages_extend st e) (ih (chatStep st e))

/-- C7 witness: a send event on a concrete loading state is ignored. -/
theorem c7_history_monotone_witness : chatStep stLoading .send = stLoading :=
  c7_history_monotone.2.1 stLoading rfl

/-- C8: the Query Classifier is a deterministic function of the utterance
and the context: the ordered heuristic battery relates an input to exactly
the category the classify function computes (so two evaluations agree and
exactly one of the five categories results), and the pipeline trace opens
with the classification, so no Completion Oracle call precedes it. -/
theorem c8_classifier_deterministic :
    (∀ (u : Words) (ctx : ChatContext) (c : Category),
        Classifies u ctx c ↔ classify u ctx = c)
    ∧ (∀ (u : Words) (ctx : ChatContext),
        (pipelineTrace u ctx).head? = some (.classified (classify u ctx))) := by
  constructor
  · intro u ctx c
    constructor
    · intro h
      cases h <;> simp [classify, *]
    · intro h
      subst h
      unfold classify
      by_cases h1 : hasWordIn u chitChatWords = true
      · rw [if_pos h1]
        exact Classifies.chitChat h1
      · rw [if_neg (by simpa using h1)]
        rw [Bool.not_eq_true] at h1
        by_cases h2 : hasWordIn u metadataWords = true
        · rw [if_pos h2]
          exact Classifies.metadata h1 h2
        · rw [if_neg (by simpa using h2)]
          rw [Bool.not_eq_true] at h2
          by_cases h3 : hasWordIn u editWords = true
          · rw [if_pos h3]
            exact Classifies.edit h1 h2 h3
          · rw [if_neg (by simpa using h3)]
            rw [Bool.not_eq_true] at h3
            by_cases h4 : (ctx.hasActiveVisualization && hasWordIn u vizWords) = true
            · rw [if_pos h4]
              exact Classifies.vizControl h1 h2 h3 h4
            · rw [if_neg (by simpa using h4)]
              rw [Bool.not_eq_true] at h4
              exact Classifies.dataQ h1 h2 h3 h4
  · intro u ctx
    rfl

/-- C8 witness: a concrete greeting classifies as chit-chat through the
battery relation. -/
theorem c8_classifier_deterministic_witness :
    Classifies ["hello"] { hasActiveVisualization := false } .chitChat :=
  (c8_classifier_deterministic.1 ["hello"] { hasActiveVisualization := false }
    .chitChat).mpr rfl

/-- C3 counterexample: a Result Set with exactly one row and one column
whose single value is not a number is classified as a table, not as the
single-value directive — the documented rule reads single number, not
single value. -/
theorem c3_counterexample :
    rsTextOne.rowCount = 1 ∧ rsTextOne.columns.length = 1
    ∧ shapeClassify rsTextOne ≠ .singleValue
    ∧ shapeClassify rsTextOne = .tabular :=
  ⟨rfl, rfl, by decide, rfl⟩

/-- C3 (amended): for every Result Set with exactly one row and one numeric
column the Shape Classifier yields the single-value directive (a one-by-one
non-numeric result falls through to tabular), and the chosen directive
depends only on the shape — row count and column kinds — never on a column
name. -/
theorem c3_single_numeric_single_value :
    (∀ rs : ResultSet, rs.rowCount = 1 → rs.columns.map RCol.kind = [ColKind.numeric] →
        shapeClassify rs = .singleValue)
    ∧ (∀ r1 r2 : ResultSet, shapeOf r1 = shapeOf r2 →
        shapeClassify r1 = shapeClassify r2) := by
  constructor
  · intro rs h1 hk
    obtain ⟨cols, n⟩ := rs
    simp only at h1 hk
    subst h1
    cases cols with
    | nil => simp at hk
    | cons c t =>
        cases t with
        | nil =>
            simp only [List.map_cons, List.map_nil, List.cons.injEq, and_true] at hk
            unfold shapeClassify
            simp [hk]
        | cons c2 t2 => simp at hk
  · intro r1 r2 h
    obtain ⟨c1, n1⟩ := r1
    obtain ⟨c2, n2⟩ := r2
    unfold shapeOf at h
    simp only [Prod.mk.injEq] at h
    obtain ⟨hn, hk⟩ := h
    subst hn
    cases c1 with
    | nil =>
        cases c2 with
        | nil => rfl
        | cons a2 t2 => simp at hk
    | cons a1 t1 =>
        cases c2 with
        | nil => simp at hk
        | cons a2 t2 =>
            simp only [List.map_cons, List.cons.injEq] at hk
            obtain ⟨ha, hk⟩ := hk
            cases t1 with
            | nil =>
                cases t2 with
                | nil => unfold shapeClassify; simp [ha]
                | cons b2 u2 => simp at hk
            | cons b1 u1 =>
                cases t2 with
                | nil => simp at hk
                | cons b2 u2 =>
                    simp only [List.map_cons, List.cons.injEq] at hk
                    obtain ⟨hb, hk⟩ := hk
                    cases u1 with
                    | nil =>
                        cases u2 with
                        | nil => unfold shapeClassify; simp [ha, hb]
                        | cons e2 v2 => simp at hk
                    | cons e1 v1 =>
                        cases u2 with
                        | nil => simp at hk
                        | cons e2 v2 => rfl

/-- C3 witness: a one-by-one numeric count result is classified as the
single-value directive. -/
theorem c3_single_numeric_single_value_witness :
    shapeClassify rsCountOne = .singleValue :=
  c3_single_numeric_single_value.1 rsCountOne rfl rfl

/-- C5 counterexample: an oracle that fails the first attempt and would
answer on the second: the single-attempt synthesizer of the code returns
Synthesis Failure where the two-attempt budget stated by the claim would
return the candidate statement. -/
theorem c5_counterexample :
    synthesize oracleSecondTry = .error ()
    ∧ synthesizeSpecRetry oracleSecondTry = .ok "SELECT 1" :=
  ⟨rfl, rfl⟩

/-- C5 (amended): the Statement Synthesizer makes a single oracle attempt —
it returns Synthesis Failure exactly when that one call is unreachable or
returns empty text, and its outcome depends only on the first attempt, so
no retry of any kind occurs before the turn fails. -/
theorem c5_single_attempt (oracle : Nat → OracleResult) :
    (synthesize oracle = .error () ↔
        oracle 0 = .unreachable ∨ oracle 0 = .text "")
    ∧ (∀ o2 : Nat → OracleResult, oracle 0 = o2 0 →
        synthesize oracle = synthesize o2) := by
  constructor
  · unfold synthesize attemptText
    cases h : oracle 0 with
    | unreachable => simp
    | text t =>
        by_cases ht : t = "" <;> simp [ht]
  · intro o2 h
    unfold synthesize
    rw [h]

/-- C5 witness: two oracles agreeing on the first attempt produce the same
synthesis outcome, regardless of later attempts. -/
theorem c5_single_attempt_witness :
    synthesize oracleSecondTry = synthesize oracleAllDown :=
  (c5_single_attempt oracleSecondTry).2 oracleAllDown rfl

/-- C6: every response built for the rendering layer carries the message
text of its turn outcome (the message is always present), and the data block
and the visualization block are present exactly when the turn is a succeeded
data query; a present data block always carries the executed statement
text. -/
theorem c6_response_shape (sid : String) (o : TurnOutcome) :
    (buildResponse sid o).message = o.messageText
    ∧ (buildResponse sid o).data.isSome = o.isDataSuccess
    ∧ (buildResponse sid o).visualization.isSome = o.isDataSuccess
    ∧ (∀ d : ChatData, (buildResponse sid o).data = some d →
        d.sql_query.isSome = true) := by
  cases o with
  | dataSuccess m rows cols stmt fid d shaped =>
      refine ⟨rfl, rfl, rfl, ?_⟩
      intro d hd
      simp only [buildResponse, Option.some.injEq] at hd
      rw [← hd]
      rfl
  | info m =>
      refine ⟨rfl, rfl, rfl, ?_⟩
      intro d hd
      simp [buildResponse] at hd
  | failure m =>
      refine ⟨rfl, rfl, rfl, ?_⟩
      intro d hd
      simp [buildResponse] at hd

/-- C6 witness: the concrete succeeded data query yields a response whose
data block carries the executed statement text. -/
theorem c6_response_shape_witness : exDataBlock.sql_query.isSome = true :=
  (c6_response_shape "session-1" exOutcome).2.2.2 exDataBlock rfl

/-- A character list is a prefix of itself under the Boolean test. -/
theorem isPrefixOf_refl_chars (l : List Char) : l.isPrefixOf l = true := by
  induction l with
  | nil => rfl
  | cons a t ih => simp [List.isPrefixOf, ih]

/-- Fuzzy identifier matching is reflexive. -/
theorem fuzzyMatches_self (t : String) : fuzzyMatches t t = true :=
  isPrefixOf_refl_chars t.data

/-- Identifier correction always emits a statement whose target is the exact
catalogued id. -/
theorem correctIdentifier_target {entry : CatalogEntry} {s0 s1 : Stmt}
    (h : correctIdentifier entry s0 = some s1) : s1.target = entry.id := by
  unfold correctIdentifier at h
  split at h
  · rw [← Option.some.inj h]
  · exact absurd h (by simp)

/-- Identifier correction is the identity on a statement that already names
the exact catalogued id. -/
theorem correctIdentifier_eq_self (entry : CatalogEntry) (s : Stmt)
    (h : s.target = entry.id) : correctIdentifier entry s = some s := by
  unfold correctIdentifier
  rw [if_pos (by rw [h]; exact fuzzyMatches_self _)]
  obtain ⟨v, tg, cr, et, gb, fe, ob, od, ln⟩ := s
  simp only at h
  simp [h]

/-- Grouping completion does not change the target reference. -/
theorem completeGrouping_target (u : Words) (e : CatalogEntry) (s : Stmt) :
    (completeGrouping u e s).target = s.target := by
  unfold completeGrouping
  split
  · rfl
  · split <;> rfl

/-- Filter completion does not change the target reference. -/
theorem completeFilter_target (u : Words) (e : CatalogEntry) (s : Stmt) :
    (completeFilter u e s).target = s.target := by
  unfold completeFilter
  split
  · rfl
  · split <;> rfl

/-- Ordering completion does not change the target reference. -/
theorem completeOrdering_target (u : Words) (s : Stmt) :
    (completeOrdering u s).target = s.target := by
  unfold completeOrdering
  split
  · rfl
  · split <;> rfl

/-- Filter completion is idempotent. -/
theorem completeFilter_idem (u : Words) (e : CatalogEntry) (s : Stmt) :
    completeFilter u e (completeFilter u e s) = completeFilter u e s := by
  unfold completeFilter
  cases hf : filterCue u e with
  | none => rfl
  | some p =>
      cases hfe : s.filterEq with
      | some q => simp [hfe]
      | none => simp [hfe]

/-- Ordering completion is idempotent. -/
theorem completeOrdering_idem (u : Words) (s : Stmt) :
    completeOrdering u (completeOrdering u s) = completeOrdering u s := by
  unfold completeOrdering
  cases hr : rankCue u with
  | none => rfl
  | some dn =>
      cases hob : s.orderBy with
      | none => simp [hob]
      | some b => simp [hob]

/-- Grouping completion fires at most once along the repair chain: after
grouping and filter completion it is the identity. -/
theorem completeGrouping_noop_after_filter (u : Words) (e : CatalogEntry) (s : Stmt) :
    completeGrouping u e (completeFilter u e (completeGrouping u e s)) =
      completeFilter u e (completeGrouping u e s) := by
  obtain ⟨v, tg, cr, et, gb, fe, ob, od, ln⟩ := s
  unfold completeGrouping completeFilter
  cases hg : groupCue u with
  | none => rfl
  | some x =>
      cases hc : e.hasColumn x with
      | false =>
          cases hf : filterCue u e <;> cases gb <;> cases fe <;> simp [hc]
      | true =>
          cases hf : filterCue u e <;> cases gb <;> cases fe <;> simp [hc]

/-- Grouping completion commutes with ordering completion: they read and
write disjoint parts of the statement. -/
theorem completeGrouping_ordering_comm (u : Words) (e : CatalogEntry) (s : Stmt) :
    completeGrouping u e (completeOrdering u s) =
      completeOrdering u (completeGrouping u e s) := by
  obtain ⟨v, tg, cr, et, gb, fe, ob, od, ln⟩ := s
  unfold completeGrouping completeOrdering
  cases hg : groupCue u with
  | none => cases hr : rankCue u <;> rfl
  | some x =>
      cases hr : rankCue u with
      | none => rfl
      | some dn =>
          cases hc : e.hasColumn x <;> cases gb <;> cases ob <;> simp [hc]

/-- Filter completion commutes with ordering completion: they read and write
disjoint parts of the statement. -/
theorem completeFilter_ordering_comm (u : Words) (e : CatalogEntry) (s : Stmt) :
    completeFilter u e (completeOrdering u s) =
      completeOrdering u (completeFilter u e s) := by
  obtain ⟨v, tg, cr, et, gb, fe, ob, od, ln⟩ := s
  unfold completeFilter completeOrdering
  cases hf : filterCue u e <;> cases hr : rankCue u <;>
    cases fe <;> cases ob <;> simp

/-- C4: Statement Repair is idempotent: whenever the fixed-order rule set
turns a Candidate Statement into a Repaired Statement, running the rule set
again on that repaired statement returns it unchanged, for every utterance,
Catalog Entry and Candidate Statement. -/
theorem c4_repair_idempotent (u : Words) (entry : CatalogEntry)
    (cand : List Stmt) (s : Stmt) (h : repair u entry cand = .ok s) :
    repair u entry [s] = .ok s := by
  cases cand with
  | nil => exact absurd h (by simp [repair])
  | cons s0 rest =>
      have h2 : (match correctIdentifier entry s0 with
          | none => (Except.error RepairError.unknownTarget : Except RepairError Stmt)
          | some s1 =>
              Except.ok (completeOrdering u
                (completeFilter u entry (completeGrouping u entry s1)))) =
          Except.ok s := h
      cases hci : correctIdentifier entry s0 with
      | none => rw [hci] at h2; simp at h2
      | some s1 =>
          rw [hci] at h2
          simp only [Except.ok.injEq] at h2
          have hts : s.target = entry.id := by
            rw [← h2, completeOrdering_target, completeFilter_target,
              completeGrouping_target]
            exact correctIdentifier_target hci
          show (match correctIdentifier entry s with
              | none => (Except.error RepairError.unknownTarget : Except RepairError Stmt)
              | some s1 =>
                  Except.ok (completeOrdering u
                    (completeFilter u entry (completeGrouping u entry s1)))) =
            Except.ok s
          rw [correctIdentifier_eq_self entry s hts]
          dsimp only
          rw [← h2]
          rw [completeGrouping_ordering_comm, completeGrouping_noop_after_filter,
            completeFilter_ordering_comm, completeFilter_idem,
            completeOrdering_idem]

/-- C4 witness: repairing a concrete two-statement candidate with a
truncated identifier, then repairing the result again, returns it
unchanged. -/
theorem c4_repair_idempotent_witness :
    repair [] exEntry [exRepairedW] = .ok exRepairedW :=
  c4_repair_idempotent [] exEntry [exSelectTrunc, exDrop] exRepairedW rfl

/-- A statement the guard passes is returned unchanged, is a SELECT, and
names the resolved target. -/
theorem guardStmt_ok_inv {rid : String} {e : CatalogEntry} {s g : Stmt}
    (h : guardStmt rid e s = .ok g) :
    g = s ∧ s.verb = "SELECT" ∧ s.target = rid := by
  unfold guardStmt at h
  split_ifs at h with h1 h2 h3 h4
  exact ⟨(Except.ok.inj h).symm, not_not.mp h1, not_not.mp h2⟩

/-- C1: for every Candidate Statement with a second, mutating statement
after the delimiter, the mutating statement never reaches the Executor:
Statement Repair keeps only the first statement (the trailing statements do
not influence the repair result), the Guard independently rejects a mutating
first statement with the StatementKind error, and whatever the Executor runs
is never mutating. -/
theorem c1_second_mutating_never_executed (rid : String) (u : Words)
    (entry : CatalogEntry) (s0 : Stmt) (rest : List Stmt)
    (hmut : ∃ m ∈ rest, m.isMutating = true) :
    repair u entry (s0 :: rest) = repair u entry [s0]
    ∧ (∀ s1 : Stmt, repair u entry (s0 :: rest) = .ok s1 → s1.isMutating = true →
        guardStmt rid entry s1 = .error .statementKind)
    ∧ (∀ g : Stmt, executedStatement rid u entry (s0 :: rest) = some g →
        g.isMutating = false) := by
  refine ⟨rfl, ?_, ?_⟩
  · intro s1 _ hm
    have hv : s1.verb ≠ "SELECT" := by
      intro hv
      rw [Stmt.isMutating, hv] at hm
      exact absurd hm (by decide)
    unfold guardStmt
    rw [if_pos hv]
  · intro g hg
    have hg2 : (match repair u entry (s0 :: rest) with
        | Except.error _ => (none : Option Stmt)
        | Except.ok s =>
            match guardStmt rid entry s with
            | Except.error _ => none
            | Except.ok g2 => some g2) = some g := hg
    cases hr : repair u entry (s0 :: rest) with
    | error e => rw [hr] at hg2; simp at hg2
    | ok s =>
        rw [hr] at hg2
        dsimp only at hg2
        cases hgd : guardStmt rid entry s with
        | error e => rw [hgd] at hg2; simp at hg2
        | ok g2 =>
            rw [hgd] at hg2
            have hgg : g2 = g := Option.some.inj hg2
            obtain ⟨hgs, hsel, _⟩ := guardStmt_ok_inv hgd
            rw [Stmt.isMutating, ← hgg, hgs, hsel]
            decide

/-- C1 witness: running the pipeline on a concrete candidate whose second
statement is a DROP executes only a non-mutating statement. -/
theorem c1_second_mutating_never_executed_witness :
    exRepairedW.isMutating = false :=
  (c1_second_mutating_never_executed "sales_2024" [] exEntry exSelectTrunc
    [exDrop] ⟨exDrop, by simp, by decide⟩).2.2 exRepairedW rfl

/-- C2 counterexample: a cross-target statement that is also mutating is
rejected by the Guard with the StatementKind reason, not the TargetWhitelist
reason, because the documented validation checks the query type before the
table name. -/
theorem c2_counterexample :
    exDropCross.target ≠ "sales_2024"
    ∧ guardStmt "sales_2024" exEntry exDropCross = .error .statementKind
    ∧ guardStmt "sales_2024" exEntry exDropCross ≠ .error .targetWhitelist := by
  refine ⟨by decide, rfl, ?_⟩
  intro h
  rw [show guardStmt "sales_2024" exEntry exDropCross =
      Except.error ErrorKind.statementKind from rfl] at h
  injection h with h1
  exact absurd h1 (by decide)

/-- C2 (amended): the Guard never passes a statement whose target differs
from the resolved id, and when such a cross-target statement is a SELECT —
in particular any syntactically valid read-only statement — the rejection
reason is TargetWhitelist; a cross-target mutating statement is caught one
check earlier as StatementKind. -/
theorem c2_cross_target_rejected (rid : String) (entry : CatalogEntry)
    (s : Stmt) (h : s.target ≠ rid) :
    (∀ g : Stmt, guardStmt rid entry s ≠ .ok g)
    ∧ (s.verb = "SELECT" → guardStmt rid entry s = .error .targetWhitelist) := by
  unfold guardStmt
  by_cases hv : s.verb = "SELECT"
  · rw [if_neg (by simp [hv]), if_pos h]
    constructor
    · intro g hc
      simp at hc
    · intro _
      rfl
  · rw [if_pos hv]
    constructor
    · intro g hc
      simp at hc
    · intro hvv
      exact absurd hvv hv

/-- C2 witness: a concrete syntactically valid SELECT against another target
is rejected with the TargetWhitelist reason. -/
theorem c2_cross_target_rejected_witness :
    guardStmt "sales_2024" exEntry exSelectCross = .error .targetWhitelist :=
  (c2_cross_target_rejected "sales_2024" exEntry exSelectCross (by decide)).2 rfl

end DataInsights
